import Mathlib

/-!
Verification of the solana_wallet client against its specification.

The development shallowly embeds the three layers of the repository:

* the Account Session Gateway (`src/lib/wallet.js`: `connectWallet`,
  `disconnectWallet`, `getTransactionHistory`),
* the Token Operations Gateway (`src/lib/token.js`: `createNewToken`,
  `mintTokens`, `sendTokens`, `getTokenBalance`),
* the Operation Orchestrator and the user-action handlers of the
  presentation layer (`src/components/WalletComponent.jsx`:
  `executeWithLoading`, `handleCreateToken`, `handleMintTokens`,
  `handleSendTokens`, `handleDisconnectWallet`, and the provider
  `disconnect` event handler).

External collaborators (the Phantom provider and the Solana RPC /
SPL-token client) are modelled by an environment `Env` whose fields give
the outcome of each delegated call.  Every embedded operation returns,
besides its result, the ordered list of delegated blockchain/provider
calls it performed (`List ExtCall`), so that claims of the form "no
blockchain-client call is made" become statements about that trace.
JavaScript numbers are modelled as exact rationals; fallible code
returns `Except String` carrying the thrown message.
-/

namespace SolanaWallet

/-- A Solana public key, identified by its base-58 rendering.
`toString`/`toBase58` on the JS object are modelled by the `key` field. -/
structure PublicKey where
  key : String
deriving DecidableEq, Repr

/-- An SPL token account as returned by `getOrCreateAssociatedTokenAccount`;
only its `address` field is used by the repository. -/
structure TokenAccount where
  address : PublicKey
deriving DecidableEq, Repr

/-- One entry of the list returned by `connection.getSignaturesForAddress`. -/
structure SigInfo where
  signature : String
deriving DecidableEq, Repr

/-- The injected wallet provider (`window.solana`), as a snapshot of the
capabilities the repository reads: `isPhantom`, `isConnected`,
`publicKey` (its value after a successful `connect()`), and whether
`provider.signTransaction` is a function. -/
structure Provider where
  isPhantom : Bool
  isConnected : Bool
  publicKey : Option PublicKey
  canSignTransactions : Bool
deriving DecidableEq, Repr

/-- A delegated call to the wallet provider or the blockchain client,
recorded in the order the source performs them. -/
inductive ExtCall where
  | providerConnect
  | providerDisconnect
  | getBalance (account : PublicKey)
  | getSignaturesForAddress (account : PublicKey) (limit : Nat)
  | createMint (payer : PublicKey) (decimals : Nat)
  | getOrCreateAssociatedTokenAccount (mint owner : PublicKey)
  | mintTo (mint dest authority : PublicKey) (amount : ℚ)
  | transfer (source dest owner : PublicKey) (amount : ℚ)
  | getTokenAccountBalance (account : PublicKey)
deriving DecidableEq, Repr

/-- Outcomes of the external collaborators: each field gives the result the
provider or blockchain client would deliver for the corresponding call.
`parsePublicKey` models the `new PublicKey(string)` constructor of
`@solana/web3.js`, which throws on a malformed address string. -/
structure Env where
  providerConnect : Except String Unit
  providerDisconnect : Except String Unit
  getBalance : PublicKey → Except String Nat
  getSignaturesForAddress : PublicKey → Nat → Except String (List SigInfo)
  createMint : PublicKey → Nat → Except String PublicKey
  getOrCreateAssociatedTokenAccount : PublicKey → PublicKey → Except String TokenAccount
  mintTo : PublicKey → PublicKey → PublicKey → ℚ → Except String String
  transfer : PublicKey → PublicKey → PublicKey → ℚ → Except String String
  getTokenAccountBalance : PublicKey → Except String ℚ
  parsePublicKey : String → Except String PublicKey

/-- Result of `connectWallet`: the stringified public key and the SOL
balance (lamports divided by 1e9), as returned by `src/lib/wallet.js`. -/
structure ConnectResult where
  publicKey : String
  balance : ℚ
deriving DecidableEq, Repr

/-- Message of the TypeError raised when `connectWallet` reads
`provider.publicKey.toString()` while `publicKey` is null. -/
def nullPublicKeyError : String := "Cannot read properties of null"

/-- Function `connectWallet` of `src/lib/wallet.js` lines 20-34: requires a Phantom
provider, invokes `provider.connect()`, reads the public key and its
lamport balance, and wraps any failure as `Wallet connection failed: `. -/
def connectWallet (provider : Option Provider) (env : Env) :
    Except String ConnectResult × List ExtCall :=
  match provider with
  | none => (.error "Wallet connection failed: Phantom wallet not found. Please install it.", [])
  | some p =>
    if !p.isPhantom then
      (.error "Wallet connection failed: Phantom wallet not found. Please install it.", [])
    else
      match env.providerConnect with
      | .error e => (.error ("Wallet connection failed: " ++ e), [.providerConnect])
      | .ok _ =>
        match p.publicKey with
        | none => (.error ("Wallet connection failed: " ++ nullPublicKeyError), [.providerConnect])
        | some pk =>
          match env.getBalance pk with
          | .error e =>
              (.error ("Wallet connection failed: " ++ e), [.providerConnect, .getBalance pk])
          | .ok lamports =>
              (.ok ⟨pk.key, (lamports : ℚ) / 1000000000⟩, [.providerConnect, .getBalance pk])

/-- Function `disconnectWallet` of `src/lib/wallet.js` lines 45-55: disconnects when
connected, is a no-op confirmation otherwise, and wraps failures as
`Disconnect failed: `. -/
def disconnectWallet (p : Provider) (env : Env) : Except String String × List ExtCall :=
  if p.isConnected then
    match env.providerDisconnect with
    | .ok _ => (.ok "Wallet disconnected", [.providerDisconnect])
    | .error e => (.error ("Disconnect failed: " ++ e), [.providerDisconnect])
  else (.ok "No wallet connected", [])

/-- Function `getTransactionHistory` of `src/lib/wallet.js` lines 64-71: asks the
client for the signatures of the address with `limit: 5` and returns them
as delivered; failures are wrapped as `Failed to fetch transaction
history: `. -/
def getTransactionHistory (account : PublicKey) (env : Env) :
    Except String (List SigInfo) × List ExtCall :=
  match env.getSignaturesForAddress account 5 with
  | .ok sigs => (.ok sigs, [.getSignaturesForAddress account 5])
  | .error e =>
      (.error ("Failed to fetch transaction history: " ++ e), [.getSignaturesForAddress account 5])

/-- Function `createNewToken` of `src/lib/token.js` lines 21-64: validates the
provider, calls `createMint` with 9 decimals, then
`getOrCreateAssociatedTokenAccount` for the payer.  Its catch block
logs and re-throws the original error unchanged (no contextual prefix). -/
def createNewToken (provider : Option Provider) (env : Env) :
    Except String (PublicKey × TokenAccount) × List ExtCall :=
  match provider with
  | none => (.error "Provider is undefined", [])
  | some p =>
    if !p.isConnected then (.error "Wallet not connected", [])
    else
      match p.publicKey with
      | none => (.error "Public key is undefined", [])
      | some payer =>
        if !p.canSignTransactions then (.error "Provider cannot sign transactions", [])
        else
          match env.createMint payer 9 with
          | .error e => (.error e, [.createMint payer 9])
          | .ok mint =>
            match env.getOrCreateAssociatedTokenAccount mint payer with
            | .error e =>
                (.error e, [.createMint payer 9, .getOrCreateAssociatedTokenAccount mint payer])
            | .ok tokenAccount =>
                (.ok (mint, tokenAccount),
                 [.createMint payer 9, .getOrCreateAssociatedTokenAccount mint payer])

/-- Function `mintTokens` of `src/lib/token.js` lines 76-92: validates the provider
and delegates `mintTo` for `amount * 1e9`; every failure (including its
own guard throws) is wrapped as `Minting failed: `. -/
def mintTokens (p : Provider) (mint : PublicKey) (tokenAccount : TokenAccount)
    (amount : ℚ) (env : Env) : Except String String × List ExtCall :=
  if !p.isConnected then (.error "Minting failed: Wallet not connected", [])
  else
    match p.publicKey with
    | none => (.error "Minting failed: Public key is undefined", [])
    | some authority =>
      match env.mintTo mint tokenAccount.address authority (amount * 1000000000) with
      | .ok sig => (.ok sig, [.mintTo mint tokenAccount.address authority (amount * 1000000000)])
      | .error e =>
          (.error ("Minting failed: " ++ e),
           [.mintTo mint tokenAccount.address authority (amount * 1000000000)])

/-- Function `sendTokens` of `src/lib/token.js` lines 105-127: validates the
provider, parses the destination with `new PublicKey(destinationAddress)`
(evaluated before any network call), resolves the destination holding
account, then delegates `transfer` for `amount * 1e9`; every failure is
wrapped as `Transfer failed: `. -/
def sendTokens (p : Provider) (mint : PublicKey) (sourceTokenAccount : TokenAccount)
    (destinationAddress : String) (amount : ℚ) (env : Env) :
    Except String String × List ExtCall :=
  if !p.isConnected then (.error "Transfer failed: Wallet not connected", [])
  else
    match p.publicKey with
    | none => (.error "Transfer failed: Public key is undefined", [])
    | some owner =>
      match env.parsePublicKey destinationAddress with
      | .error e => (.error ("Transfer failed: " ++ e), [])
      | .ok destOwner =>
        match env.getOrCreateAssociatedTokenAccount mint destOwner with
        | .error e =>
            (.error ("Transfer failed: " ++ e), [.getOrCreateAssociatedTokenAccount mint destOwner])
        | .ok destTokenAccount =>
          match env.transfer sourceTokenAccount.address destTokenAccount.address owner
              (amount * 1000000000) with
          | .ok sig =>
              (.ok sig,
               [.getOrCreateAssociatedTokenAccount mint destOwner,
                .transfer sourceTokenAccount.address destTokenAccount.address owner
                  (amount * 1000000000)])
          | .error e =>
              (.error ("Transfer failed: " ++ e),
               [.getOrCreateAssociatedTokenAccount mint destOwner,
                .transfer sourceTokenAccount.address destTokenAccount.address owner
                  (amount * 1000000000)])

/-- Function `getTokenBalance` of `src/lib/token.js` lines 136-143: reads the token
account balance; failures are wrapped as `Failed to fetch token
balance: `. -/
def getTokenBalance (tokenAccount : TokenAccount) (env : Env) :
    Except String ℚ × List ExtCall :=
  match env.getTokenAccountBalance tokenAccount.address with
  | .ok b => (.ok b, [.getTokenAccountBalance tokenAccount.address])
  | .error e =>
      (.error ("Failed to fetch token balance: " ++ e),
       [.getTokenAccountBalance tokenAccount.address])

/-- The React state of `WalletComponent` (`useState` hooks of
`src/components/WalletComponent.jsx` lines 50-61), plus a counter of the
`setTimeout(=> setStatus(Idle), 3000)` resets the orchestrator has
scheduled so far. -/
structure WalletState where
  walletInfo : String
  status : String
  mint : Option PublicKey
  tokenAccount : Option TokenAccount
  provider : Option Provider
  publicKey : Option String
  solBalance : ℚ
  recipientAddress : String
  transactionHistory : List SigInfo
  isLoading : Bool
  dialogError : String
  pendingStatusResets : Nat
deriving DecidableEq, Repr

/-- The initial state of `WalletComponent`. -/
def initialState : WalletState :=
  { walletInfo := "Not connected", status := "Idle", mint := none, tokenAccount := none
    provider := none, publicKey := none, solBalance := 0, recipientAddress := ""
    transactionHistory := [], isLoading := false, dialogError := "", pendingStatusResets := 0 }

/-- JavaScript `successMessage || result`: the left operand wins unless it
is falsy (absent or the empty string). -/
def jsOr (successMessage : Option String) (result : String) : String :=
  match successMessage with
  | some s => if s = "" then result else s
  | none => result

/-- Function `executeWithLoading` of `src/components/WalletComponent.jsx` lines
97-113.  The wrapped action `fn` receives the state with the busy flag
raised and the dialog error cleared, and yields its outcome, the state
after its own updates, and its delegated-call trace.  On success the
status becomes `successMessage || result`; on failure the status becomes
`Error: ` plus the message, the dialog error is set, and the error is
re-signalled to the caller with those updates already applied.  The
`finally` block always lowers the busy flag and schedules a 3-second
status reset (counted by `pendingStatusResets`). -/
def executeWithLoading (fn : WalletState → Except String String × WalletState × List ExtCall)
    (successMessage : Option String) (s : WalletState) :
    Except String String × WalletState × List ExtCall :=
  match fn { s with isLoading := true, dialogError := "" } with
  | (.ok r, s1, calls) =>
      (.ok r,
       { s1 with status := jsOr successMessage r, isLoading := false,
                 pendingStatusResets := s1.pendingStatusResets + 1 }, calls)
  | (.error e, s1, calls) =>
      (.error e,
       { s1 with status := "Error: " ++ e, dialogError := e, isLoading := false,
                 pendingStatusResets := s1.pendingStatusResets + 1 }, calls)

/-- The action wrapped by `handleCreateToken` (`WalletComponent.jsx` lines
142-151): connect guard, the 0.002 SOL balance guard, then
`createNewToken`; on success the mint and token account are stored. -/
def handleCreateTokenFn (env : Env) (s : WalletState) :
    Except String String × WalletState × List ExtCall :=
  match s.provider, s.publicKey with
  | some p, some pkStr =>
    if pkStr = "" then (.error "Please connect your wallet first", s, [])
    else if s.solBalance < 2 / 1000 then
      (.error "Insufficient SOL. You need at least 0.002 SOL.", s, [])
    else
      match createNewToken (some p) env with
      | (.ok (mint, tokenAccount), calls) =>
          (.ok ("Token created: " ++ mint.key.take 12 ++ "..."),
           { s with mint := some mint, tokenAccount := some tokenAccount }, calls)
      | (.error e, calls) => (.error e, s, calls)
  | _, _ => (.error "Please connect your wallet first", s, [])

/-- Handler `handleCreateToken` as dispatched by the UI: the action run through the
orchestrator with no explicit success message. -/
def handleCreateToken (env : Env) (s : WalletState) :
    Except String String × WalletState × List ExtCall :=
  executeWithLoading (handleCreateTokenFn env) none s

/-- The action wrapped by `handleMintTokens` (`WalletComponent.jsx` lines
154-161): connect guard, token-handle guard, then `mintTokens` with the
fixed amount 100. -/
def handleMintTokensFn (env : Env) (s : WalletState) :
    Except String String × WalletState × List ExtCall :=
  match s.provider, s.publicKey with
  | some p, some pkStr =>
    if pkStr = "" then (.error "Please connect your wallet first", s, [])
    else
      match s.mint, s.tokenAccount with
      | some mint, some tokenAccount =>
        (match mintTokens p mint tokenAccount 100 env with
         | (.ok sig, calls) => (.ok ("Minted 100 tokens. Tx: " ++ sig.take 12 ++ "..."), s, calls)
         | (.error e, calls) => (.error e, s, calls))
      | _, _ => (.error "Create a token first", s, [])
  | _, _ => (.error "Please connect your wallet first", s, [])

/-- Handler `handleMintTokens` as dispatched by the UI. -/
def handleMintTokens (env : Env) (s : WalletState) :
    Except String String × WalletState × List ExtCall :=
  executeWithLoading (handleMintTokensFn env) none s

/-- The action wrapped by `handleSendTokens` (`WalletComponent.jsx` lines
165-173): connect guard, token-handle guard, then `sendTokens` of the
fixed amount 50 to the recipient address held in the state; on success
the recipient field is cleared. -/
def handleSendTokensFn (env : Env) (s : WalletState) :
    Except String String × WalletState × List ExtCall :=
  match s.provider, s.publicKey with
  | some p, some pkStr =>
    if pkStr = "" then (.error "Please connect your wallet first", s, [])
    else
      match s.mint, s.tokenAccount with
      | some mint, some tokenAccount =>
        (match sendTokens p mint tokenAccount s.recipientAddress 50 env with
         | (.ok sig, calls) =>
             (.ok ("Sent 50 tokens. Tx: " ++ sig.take 12 ++ "..."),
              { s with recipientAddress := "" }, calls)
         | (.error e, calls) => (.error e, s, calls))
      | _, _ => (.error "Create and mint tokens first", s, [])
  | _, _ => (.error "Please connect your wallet first", s, [])

/-- Handler `handleSendTokens` as dispatched by the UI. -/
def handleSendTokens (env : Env) (s : WalletState) :
    Except String String × WalletState × List ExtCall :=
  executeWithLoading (handleSendTokensFn env) none s

/-- The action wrapped by `handleDisconnectWallet` (`WalletComponent.jsx`
lines 128-139): requires a provider, calls `disconnectWallet`, and on
success resets the session fields and clears the token handle. -/
def handleDisconnectWalletFn (env : Env) (s : WalletState) :
    Except String String × WalletState × List ExtCall :=
  match s.provider with
  | none => (.error "No wallet to disconnect", s, [])
  | some p =>
    match disconnectWallet p env with
    | (.ok _, calls) =>
        (.ok "Wallet disconnected successfully",
         { s with publicKey := none, solBalance := 0, mint := none, tokenAccount := none,
                  walletInfo := "Not connected" }, calls)
    | (.error e, calls) => (.error e, s, calls)

/-- Handler `handleDisconnectWallet` as dispatched by the UI. -/
def handleDisconnectWallet (env : Env) (s : WalletState) :
    Except String String × WalletState × List ExtCall :=
  executeWithLoading (handleDisconnectWalletFn env) none s

/-- The provider-initiated `disconnect` event handler
(`WalletComponent.jsx` lines 82-86): it resets the public key, the SOL
balance and the wallet info, and touches nothing else. -/
def handleDisconnect (s : WalletState) : WalletState :=
  { s with publicKey := none, solBalance := 0, walletInfo := "Not connected" }

/-- The status banner together with the firing times of the scheduled
`setTimeout(=> setStatus(Idle), 3000)` resets, for the timed analysis of
the auto-clear behaviour. -/
structure TimedStatus where
  status : String
  timers : List Nat
deriving DecidableEq, Repr

/-- An operation completing at time `now` (milliseconds): the `finally`
block of `executeWithLoading` leaves `finalStatus` on the banner and
schedules an untracked reset for `now + 3000`. -/
def opComplete (now : Nat) (finalStatus : String) (ui : TimedStatus) : TimedStatus :=
  { status := finalStatus, timers := ui.timers ++ [now + 3000] }

/-- A scheduled reset firing at time `now`: the callback unconditionally
sets the status to `Idle`.  If no timer is due at `now` nothing happens. -/
def timerFire (now : Nat) (ui : TimedStatus) : TimedStatus :=
  if now ∈ ui.timers then { status := "Idle", timers := ui.timers.erase now } else ui

/-- Boolean test that `needle` occurs as a prefix of `hay` (on character
lists). -/
def charListStartsWith : List Char → List Char → Bool
  | [], _ => true
  | _ :: _, [] => false
  | a :: as, b :: bs => a == b && charListStartsWith as bs

/-- Boolean test that the pattern occurs somewhere inside the subject
character list. -/
def charListOccurs (needle : List Char) : List Char → Bool
  | [] => charListStartsWith needle []
  | c :: cs => charListStartsWith needle (c :: cs) || charListOccurs needle cs

/-- Predicate `strContains hay needle` holds when `needle` occurs as a contiguous
substring of `hay`. -/
def strContains (hay needle : String) : Bool :=
  charListOccurs needle.toList hay.toList

/-- Sample public key, used as the connected account in concrete runs. -/
def pkTest : PublicKey := ⟨"TestPubKey11"⟩

/-- Sample mint address delivered by the blockchain client. -/
def mintTest : PublicKey := ⟨"TestMint1111"⟩

/-- Sample token account delivered by the blockchain client. -/
def taTest : TokenAccount := ⟨⟨"TestTokAcct1"⟩⟩

/-- A fully capable connected Phantom provider. -/
def providerTest : Provider :=
  { isPhantom := true, isConnected := true, publicKey := some pkTest,
    canSignTransactions := true }

/-- An environment in which every delegated call succeeds. -/
def envAllOk : Env :=
  { providerConnect := .ok ()
    providerDisconnect := .ok ()
    getBalance := fun _ => .ok 5000000000
    getSignaturesForAddress := fun _ _ => .ok [⟨"SigAAA"⟩, ⟨"SigBBB"⟩]
    createMint := fun _ _ => .ok mintTest
    getOrCreateAssociatedTokenAccount := fun _ _ => .ok taTest
    mintTo := fun _ _ _ _ => .ok "MintSig11111"
    transfer := fun _ _ _ _ => .ok "TransferSig1"
    getTokenAccountBalance := fun _ => .ok 100
    parsePublicKey := fun str => .ok ⟨str⟩ }

/-- An environment in which every delegated call fails, except that the
destination address parses and its holding account resolves (so that the
`transfer` failure itself is reachable). -/
def envFailures : Env :=
  { providerConnect := .error "conn down"
    providerDisconnect := .error "disc down"
    getBalance := fun _ => .error "bal down"
    getSignaturesForAddress := fun _ _ => .error "sig down"
    createMint := fun _ _ => .error "boom"
    getOrCreateAssociatedTokenAccount := fun _ _ => .ok taTest
    mintTo := fun _ _ _ _ => .error "mint down"
    transfer := fun _ _ _ _ => .error "tx down"
    getTokenAccountBalance := fun _ => .error "tok down"
    parsePublicKey := fun str => .ok ⟨str⟩ }

/-- An environment whose address parser rejects every string, modelling a
malformed destination address. -/
def envBadAddress : Env :=
  { envAllOk with parsePublicKey := fun _ => .error "Invalid public key input" }

/-- An environment whose history query delivers no signatures. -/
def envEmptyHistory : Env :=
  { envAllOk with getSignaturesForAddress := fun _ _ => .ok [] }

/-- A component state with a connected session and no token handle. -/
def stateConnected : WalletState :=
  { walletInfo := "TestPu...Key11", status := "Idle", mint := none, tokenAccount := none
    provider := some providerTest, publicKey := some "TestPubKey11", solBalance := 1
    recipientAddress := "DestAddr9999", transactionHistory := [], isLoading := false
    dialogError := "", pendingStatusResets := 0 }

/-- A wrapped action that always succeeds with a fixed message and makes
no delegated call, used to exercise the orchestrator on its own. -/
def fnOkConst : WalletState → Except String String × WalletState × List ExtCall :=
  fun s => (.ok "op done", s, [])

/-- A wrapped action that always throws a fixed message and makes no
delegated call. -/
def fnFailConst : WalletState → Except String String × WalletState × List ExtCall :=
  fun s => (.error "op failed", s, [])

/-- C1 (amended): for every run of the orchestrator, if the action
resolves then the display status is set to the successMessage when a
non-empty one is provided and otherwise (absent or empty, by the
JavaScript truthiness of the or-operator) to the action's return value;
if the action throws, the error message is recorded both as the visible
status (prefixed `Error: `) and as the dialog-scoped error string, the
busy flag is lowered and a status reset is scheduled, and the error is
re-signalled to the caller together with exactly those state updates. -/
theorem executeWithLoading_settles_state
    (fn : WalletState → Except String String × WalletState × List ExtCall)
    (m : Option String) (s : WalletState) :
    (∀ r s1 calls, fn { s with isLoading := true, dialogError := "" } = (.ok r, s1, calls) →
      executeWithLoading fn m s =
        (.ok r, { s1 with status := jsOr m r, isLoading := false,
                          pendingStatusResets := s1.pendingStatusResets + 1 }, calls)) ∧
    (∀ e s1 calls, fn { s with isLoading := true, dialogError := "" } = (.error e, s1, calls) →
      executeWithLoading fn m s =
        (.error e, { s1 with status := "Error: " ++ e, dialogError := e, isLoading := false,
                             pendingStatusResets := s1.pendingStatusResets + 1 }, calls)) := by
  constructor
  · intro r s1 calls h
    simp [executeWithLoading, h]
  · intro e s1 calls h
    simp [executeWithLoading, h]

/-- C1, counterexample to the claim as stated: invoking the orchestrator
with the provided successMessage `""` on an action that resolves to
`"op done"` sets the status to the return value, not to the provided
message, because `successMessage || result` treats the empty string as
absent. -/
theorem executeWithLoading_empty_message_counterexample :
    (executeWithLoading fnOkConst (some "") stateConnected).2.1.status = "op done" ∧
    "op done" ≠ "" := by
  exact ⟨rfl, by decide⟩

/-- C1 witness: a concrete successful run with a non-empty successMessage
and a concrete failing run, with the state updates evaluated. -/
theorem executeWithLoading_settles_state_witness :
    executeWithLoading fnOkConst (some "Saved") stateConnected =
      (.ok "op done",
       { stateConnected with status := "Saved", isLoading := false, dialogError := "",
                             pendingStatusResets := 1 }, []) ∧
    executeWithLoading fnFailConst none stateConnected =
      (.error "op failed",
       { stateConnected with status := "Error: op failed", isLoading := false,
                             dialogError := "op failed", pendingStatusResets := 1 }, []) := by
  constructor
  · exact (executeWithLoading_settles_state fnOkConst (some "Saved") stateConnected).1
      "op done" { stateConnected with isLoading := true, dialogError := "" } [] rfl
  · exact (executeWithLoading_settles_state fnFailConst none stateConnected).2
      "op failed" { stateConnected with isLoading := true, dialogError := "" } [] rfl

/-- C10: after every run of the orchestrator settles, whether the wrapped
action resolved or threw, the busy flag `isLoading` is false. -/
theorem executeWithLoading_clears_isLoading
    (fn : WalletState → Except String String × WalletState × List ExtCall)
    (m : Option String) (s : WalletState) :
    (executeWithLoading fn m s).2.1.isLoading = false := by
  rcases h : fn { s with isLoading := true, dialogError := "" } with ⟨res, s1, calls⟩
  cases res <;> simp [executeWithLoading, h]

/-- C3: for every connected session, when the destination address string
does not parse as a public key, `sendTokens` fails with the parse error
(wrapped by the layer's `Transfer failed: ` prefix) and its delegated-call
trace is empty: neither `getOrCreateAssociatedTokenAccount` nor
`transfer` is invoked. -/
theorem sendTokens_invalid_address_no_network_call (p : Provider) (pk mint : PublicKey)
    (ta : TokenAccount) (dest : String) (amount : ℚ) (env : Env) (e : String)
    (hconn : p.isConnected = true) (hpk : p.publicKey = some pk)
    (hparse : env.parsePublicKey dest = .error e) :
    sendTokens p mint ta dest amount env = (.error ("Transfer failed: " ++ e), []) := by
  simp [sendTokens, hconn, hpk, hparse]

/-- C3 witness: a concrete malformed destination is rejected before any
network call. -/
theorem sendTokens_invalid_address_no_network_call_witness :
    sendTokens providerTest mintTest taTest "not-a-key" 50 envBadAddress =
      (.error ("Transfer failed: " ++ "Invalid public key input"), []) := by
  exact sendTokens_invalid_address_no_network_call providerTest pkTest mintTest taTest
    "not-a-key" 50 envBadAddress "Invalid public key input" rfl rfl rfl

/-- C7: the history query always asks the blockchain client for the
signatures of the account with limit 5, returns the delivered list
verbatim (hence newest first, as the client delivers it, and of length at
most 5 whenever the client honours the limit), and yields an empty list
rather than an error for an account with no transactions. -/
theorem getTransactionHistory_limit_five (env : Env) (pk : PublicKey) (sigs : List SigInfo)
    (hok : env.getSignaturesForAddress pk 5 = .ok sigs) (hlen : sigs.length ≤ 5) :
    getTransactionHistory pk env = (.ok sigs, [.getSignaturesForAddress pk 5]) ∧
    (∃ l, (getTransactionHistory pk env).1 = .ok l ∧ l.length ≤ 5) ∧
    (sigs = [] → (getTransactionHistory pk env).1 = .ok []) := by
  refine ⟨by simp [getTransactionHistory, hok], ⟨sigs, by simp [getTransactionHistory, hok], hlen⟩, ?_⟩
  intro h
  subst h
  simp [getTransactionHistory, hok]

/-- C7 witness: a concrete two-signature history is returned verbatim with
a limit-5 request, and an empty history yields an empty list, not an
error. -/
theorem getTransactionHistory_limit_five_witness :
    getTransactionHistory pkTest envAllOk =
      (.ok [⟨"SigAAA"⟩, ⟨"SigBBB"⟩], [.getSignaturesForAddress pkTest 5]) ∧
    (getTransactionHistory pkTest envEmptyHistory).1 = .ok [] := by
  exact ⟨(getTransactionHistory_limit_five envAllOk pkTest [⟨"SigAAA"⟩, ⟨"SigBBB"⟩]
            rfl (by decide)).1,
         (getTransactionHistory_limit_five envEmptyHistory pkTest [] rfl (by decide)).2.2 rfl⟩

/-- C2, counterexample to the claim as stated: with no provider and
nativeBalance 0.001 < 0.002, the create-token operation fails with the
connect-first error, whose message does not contain `0.002`, because the
connect guard precedes the balance guard (no blockchain call is made
either way). -/
theorem handleCreateToken_low_balance_disconnected_counterexample :
    (handleCreateToken envAllOk
        { stateConnected with provider := none, solBalance := 1 / 1000 }).1 =
      .error "Please connect your wallet first" ∧
    (handleCreateToken envAllOk
        { stateConnected with provider := none, solBalance := 1 / 1000 }).2.2 = [] ∧
    strContains "Please connect your wallet first" "0.002" = false ∧
    (1 / 1000 : ℚ) < 2 / 1000 := by
  refine ⟨rfl, rfl, by decide, by norm_num⟩

/-- C2 (amended): for every nativeBalance strictly below 0.002 the
create-token operation makes no blockchain-client call, and when the
session is connected (provider present and a non-empty public key) it
fails with the insufficient-funds message, which contains `0.002`,
regardless of the provider's internal state; when the session is not
connected it fails with a connect-first error instead. -/
theorem handleCreateToken_insufficient_funds (env : Env) (s : WalletState)
    (hbal : s.solBalance < 2 / 1000) :
    (handleCreateToken env s).2.2 = [] ∧
    (∀ p pkStr, s.provider = some p → s.publicKey = some pkStr → pkStr ≠ "" →
      (handleCreateToken env s).1 = .error "Insufficient SOL. You need at least 0.002 SOL.") ∧
    strContains "Insufficient SOL. You need at least 0.002 SOL." "0.002" = true := by
  refine ⟨?_, ?_, by decide⟩
  · rcases hp : s.provider with _ | p
    · simp [handleCreateToken, executeWithLoading, handleCreateTokenFn, hp]
    · rcases hpk : s.publicKey with _ | pkStr
      · simp [handleCreateToken, executeWithLoading, handleCreateTokenFn, hp, hpk]
      · by_cases hempty : pkStr = ""
        · simp [handleCreateToken, executeWithLoading, handleCreateTokenFn, hp, hpk, hempty]
        · simp [handleCreateToken, executeWithLoading, handleCreateTokenFn,
                hp, hpk, hempty, hbal]
  · intro p pkStr hp hpk hne
    simp [handleCreateToken, executeWithLoading, handleCreateTokenFn, hp, hpk, hne, hbal]

/-- C2 witness: a connected session with balance 0.001 is rejected with
the insufficient-funds message and an empty delegated-call trace. -/
theorem handleCreateToken_insufficient_funds_witness :
    (handleCreateToken envAllOk { stateConnected with solBalance := 1 / 1000 }).2.2 = [] ∧
    (handleCreateToken envAllOk { stateConnected with solBalance := 1 / 1000 }).1 =
      .error "Insufficient SOL. You need at least 0.002 SOL." := by
  have h := handleCreateToken_insufficient_funds envAllOk
      { stateConnected with solBalance := 1 / 1000 }
      (by show (1 / 1000 : ℚ) < 2 / 1000; norm_num)
  exact ⟨h.1, h.2.1 providerTest "TestPubKey11" rfl rfl (by decide)⟩

/-- C4: in a connected session holding no token handle (mint or token
account absent), the mint-tokens and send-tokens operations both fail
with their no-token-handle errors and make no blockchain-client call. -/
theorem no_token_handle_fails_without_client_call (env : Env) (s : WalletState)
    (p : Provider) (pkStr : String)
    (hp : s.provider = some p) (hpk : s.publicKey = some pkStr) (hne : pkStr ≠ "")
    (hhandle : s.mint = none ∨ s.tokenAccount = none) :
    (handleMintTokens env s).1 = .error "Create a token first" ∧
    (handleMintTokens env s).2.2 = [] ∧
    (handleSendTokens env s).1 = .error "Create and mint tokens first" ∧
    (handleSendTokens env s).2.2 = [] := by
  rcases hhandle with hm | ht
  · rcases hta : s.tokenAccount with _ | ta <;>
      simp [handleMintTokens, handleSendTokens, executeWithLoading,
            handleMintTokensFn, handleSendTokensFn, hp, hpk, hne, hm, hta]
  · rcases hmm : s.mint with _ | mm <;>
      simp [handleMintTokens, handleSendTokens, executeWithLoading,
            handleMintTokensFn, handleSendTokensFn, hp, hpk, hne, hmm, ht]

/-- C4 witness: the connected sample session with no token handle is
rejected by both operations without any delegated call. -/
theorem no_token_handle_fails_without_client_call_witness :
    (handleMintTokens envAllOk stateConnected).1 = .error "Create a token first" ∧
    (handleMintTokens envAllOk stateConnected).2.2 = [] ∧
    (handleSendTokens envAllOk stateConnected).1 = .error "Create and mint tokens first" ∧
    (handleSendTokens envAllOk stateConnected).2.2 = [] := by
  exact no_token_handle_fails_without_client_call envAllOk stateConnected providerTest
    "TestPubKey11" rfl rfl (by decide) (Or.inl rfl)

/-- C5, counterexample to the claim as stated: the provider-initiated
disconnect event handler leaves a held token handle in place — after the
event, `mint` and `tokenAccount` still hold their values instead of being
cleared. -/
theorem provider_disconnect_keeps_handle_counterexample :
    (handleDisconnect
        { stateConnected with mint := some mintTest, tokenAccount := some taTest }).mint =
      some mintTest ∧
    (handleDisconnect
        { stateConnected with mint := some mintTest, tokenAccount := some taTest }).tokenAccount =
      some taTest ∧
    some mintTest ≠ (none : Option PublicKey) := by
  exact ⟨rfl, rfl, by decide⟩

/-- C5 (amended): a user-initiated Disconnect that succeeds resets the
session (publicKey null, SOL balance 0, wallet info `Not connected`) and
clears the token handle; a provider-initiated disconnect event resets the
same session fields but leaves any held token handle (mint and token
account) unchanged. -/
theorem disconnect_resets_session (env : Env) (s : WalletState) (p : Provider)
    (hp : s.provider = some p) (hok : env.providerDisconnect = .ok ()) :
    ((handleDisconnectWallet env s).2.1.publicKey = none ∧
     (handleDisconnectWallet env s).2.1.solBalance = 0 ∧
     (handleDisconnectWallet env s).2.1.mint = none ∧
     (handleDisconnectWallet env s).2.1.tokenAccount = none ∧
     (handleDisconnectWallet env s).2.1.walletInfo = "Not connected") ∧
    ((handleDisconnect s).publicKey = none ∧
     (handleDisconnect s).solBalance = 0 ∧
     (handleDisconnect s).walletInfo = "Not connected" ∧
     (handleDisconnect s).mint = s.mint ∧
     (handleDisconnect s).tokenAccount = s.tokenAccount) := by
  constructor
  · cases hc : p.isConnected <;>
      simp [handleDisconnectWallet, executeWithLoading, handleDisconnectWalletFn,
            disconnectWallet, hp, hok, hc]
  · simp [handleDisconnect]

/-- C5 witness: disconnecting the sample session through the Disconnect
action clears the token handle, and the provider event on the same state
resets the balance. -/
theorem disconnect_resets_session_witness :
    (handleDisconnectWallet envAllOk
        { stateConnected with mint := some mintTest, tokenAccount := some taTest }).2.1.publicKey
      = none ∧
    (handleDisconnectWallet envAllOk
        { stateConnected with mint := some mintTest, tokenAccount := some taTest }).2.1.mint
      = none ∧
    (handleDisconnect stateConnected).solBalance = 0 := by
  have h := disconnect_resets_session envAllOk
      { stateConnected with mint := some mintTest, tokenAccount := some taTest }
      providerTest rfl rfl
  have h2 := disconnect_resets_session envAllOk stateConnected providerTest rfl rfl
  exact ⟨h.1.1, h.1.2.2.1, h2.2.2.1⟩

/-- C6, counterexample to the claim as stated: when `createMint` fails
with the message `boom`, `createNewToken` re-throws exactly the
underlying message `boom` — byte for byte the collaborator's error, with
no contextual prefix identifying the operation. -/
theorem createNewToken_unprefixed_error_counterexample :
    envFailures.createMint pkTest 9 = .error "boom" ∧
    (createNewToken (some providerTest) envFailures).1 = .error "boom" := by
  exact ⟨rfl, rfl⟩

/-- C6 (amended): every gateway operation re-throws underlying failures
(no silent swallowing) after attempting each delegated call exactly once
(no retries, as the traces show); all of them except `createNewToken`
prepend a contextual prefix identifying the operation, while
`createNewToken` re-throws the underlying error message unchanged. -/
theorem gateway_error_propagation (env : Env) (p : Provider) (pk mint : PublicKey)
    (ta : TokenAccount) (dest : String) (dpk : PublicKey) (dta : TokenAccount) (amount : ℚ)
    (e1 e2 e3 e4 e5 e6 e7 : String)
    (hp1 : p.isPhantom = true) (hp2 : p.isConnected = true) (hp3 : p.publicKey = some pk)
    (hp4 : p.canSignTransactions = true)
    (h1 : env.providerConnect = .error e1)
    (h2 : env.providerDisconnect = .error e2)
    (h3 : env.getSignaturesForAddress pk 5 = .error e3)
    (h4 : env.createMint pk 9 = .error e4)
    (h5 : env.mintTo mint ta.address pk (amount * 1000000000) = .error e5)
    (h6 : env.parsePublicKey dest = .ok dpk)
    (h7 : env.getOrCreateAssociatedTokenAccount mint dpk = .ok dta)
    (h8 : env.transfer ta.address dta.address pk (amount * 1000000000) = .error e6)
    (h9 : env.getTokenAccountBalance ta.address = .error e7) :
    connectWallet (some p) env =
      (.error ("Wallet connection failed: " ++ e1), [.providerConnect]) ∧
    disconnectWallet p env = (.error ("Disconnect failed: " ++ e2), [.providerDisconnect]) ∧
    getTransactionHistory pk env =
      (.error ("Failed to fetch transaction history: " ++ e3),
       [.getSignaturesForAddress pk 5]) ∧
    createNewToken (some p) env = (.error e4, [.createMint pk 9]) ∧
    mintTokens p mint ta amount env =
      (.error ("Minting failed: " ++ e5), [.mintTo mint ta.address pk (amount * 1000000000)]) ∧
    sendTokens p mint ta dest amount env =
      (.error ("Transfer failed: " ++ e6),
       [.getOrCreateAssociatedTokenAccount mint dpk,
        .transfer ta.address dta.address pk (amount * 1000000000)]) ∧
    getTokenBalance ta env =
      (.error ("Failed to fetch token balance: " ++ e7),
       [.getTokenAccountBalance ta.address]) := by
  refine ⟨?_, ?_, ?_, ?_, ?_, ?_, ?_⟩
  · simp [connectWallet, hp1, h1]
  · simp [disconnectWallet, hp2, h2]
  · simp [getTransactionHistory, h3]
  · simp [createNewToken, hp2, hp3, hp4, h4]
  · simp [mintTokens, hp2, hp3, h5]
  · simp [sendTokens, hp2, hp3, h6, h7, h8]
  · simp [getTokenBalance, h9]

/-- C6 witness: in the all-failing environment every gateway operation
re-throws with its prefix and a single-attempt trace, except
`createNewToken`, which re-throws `boom` unchanged. -/
theorem gateway_error_propagation_witness :
    connectWallet (some providerTest) envFailures =
      (.error ("Wallet connection failed: " ++ "conn down"), [.providerConnect]) ∧
    disconnectWallet providerTest envFailures =
      (.error ("Disconnect failed: " ++ "disc down"), [.providerDisconnect]) ∧
    getTransactionHistory pkTest envFailures =
      (.error ("Failed to fetch transaction history: " ++ "sig down"),
       [.getSignaturesForAddress pkTest 5]) ∧
    createNewToken (some providerTest) envFailures =
      (.error "boom", [.createMint pkTest 9]) ∧
    mintTokens providerTest mintTest taTest 100 envFailures =
      (.error ("Minting failed: " ++ "mint down"),
       [.mintTo mintTest taTest.address pkTest (100 * 1000000000)]) ∧
    sendTokens providerTest mintTest taTest "DestAddr9999" 100 envFailures =
      (.error ("Transfer failed: " ++ "tx down"),
       [.getOrCreateAssociatedTokenAccount mintTest ⟨"DestAddr9999"⟩,
        .transfer taTest.address taTest.address pkTest (100 * 1000000000)]) ∧
    getTokenBalance taTest envFailures =
      (.error ("Failed to fetch token balance: " ++ "tok down"),
       [.getTokenAccountBalance taTest.address]) := by
  exact gateway_error_propagation envFailures providerTest pkTest mintTest taTest
    "DestAddr9999" ⟨"DestAddr9999"⟩ taTest 100
    "conn down" "disc down" "sig down" "boom" "mint down" "tx down" "tok down"
    rfl rfl rfl rfl rfl rfl rfl rfl rfl rfl rfl rfl rfl

/-- C8: in a connected, signing-capable session, the quantity delegated to
the blockchain client by `mintTokens` and by `sendTokens` is the request
amount scaled by the fixed 9-decimal precision (amount times 10 to the
9th), and `createNewToken` asks the client to create the token type with
exactly 9 decimals, as the delegated-call traces show. -/
theorem amounts_scaled_by_nine_decimals (env : Env) (p : Provider) (pk mint : PublicKey)
    (ta : TokenAccount) (dest : String) (dpk : PublicKey) (dta : TokenAccount) (amount : ℚ)
    (hp2 : p.isConnected = true) (hp3 : p.publicKey = some pk)
    (hp4 : p.canSignTransactions = true)
    (hparse : env.parsePublicKey dest = .ok dpk)
    (hata : env.getOrCreateAssociatedTokenAccount mint dpk = .ok dta) :
    (mintTokens p mint ta amount env).2 = [.mintTo mint ta.address pk (amount * 10 ^ 9)] ∧
    (sendTokens p mint ta dest amount env).2 =
      [.getOrCreateAssociatedTokenAccount mint dpk,
       .transfer ta.address dta.address pk (amount * 10 ^ 9)] ∧
    (createNewToken (some p) env).2.head? = some (.createMint pk 9) := by
  have hscale : (amount * 1000000000 : ℚ) = amount * 10 ^ 9 := by norm_num
  refine ⟨?_, ?_, ?_⟩
  · simp [mintTokens, hp2, hp3, hscale]
    cases env.mintTo mint ta.address pk (amount * 10 ^ 9) <;> simp
  · simp [sendTokens, hp2, hp3, hparse, hata, hscale]
    cases env.transfer ta.address dta.address pk (amount * 10 ^ 9) <;> simp
  · rcases hcm : env.createMint pk 9 with e | mint2
    · simp [createNewToken, hp2, hp3, hp4, hcm]
    · rcases hata2 : env.getOrCreateAssociatedTokenAccount mint2 pk with e | ta2 <;>
        simp [createNewToken, hp2, hp3, hp4, hcm, hata2]

/-- C8 witness: minting 100 and sending 100 delegate 100 scaled by 10 to
the 9th, and the sample token creation requests 9 decimals. -/
theorem amounts_scaled_by_nine_decimals_witness :
    (mintTokens providerTest mintTest taTest 100 envAllOk).2 =
      [.mintTo mintTest taTest.address pkTest ((100 : ℚ) * 10 ^ 9)] ∧
    (sendTokens providerTest mintTest taTest "DestAddr9999" 100 envAllOk).2 =
      [.getOrCreateAssociatedTokenAccount mintTest ⟨"DestAddr9999"⟩,
       .transfer taTest.address taTest.address pkTest ((100 : ℚ) * 10 ^ 9)] ∧
    (createNewToken (some providerTest) envAllOk).2.head? = some (.createMint pkTest 9) := by
  exact amounts_scaled_by_nine_decimals envAllOk providerTest pkTest mintTest taTest
    "DestAddr9999" ⟨"DestAddr9999"⟩ taTest 100 rfl rfl rfl rfl rfl

/-- C9, counterexample to the claim as stated: operation A completes at
time 0 and operation B at time 2000; the untracked timer scheduled by A
fires at time 3000 and clears the banner to `Idle` only 1000 ms after the
status entered B's terminal message — earlier than the claimed fixed
3-second delay (B's own reset, still pending for 5000, would come later). -/
theorem status_reset_early_counterexample :
    (timerFire 3000 (opComplete 2000 "Success B"
        (opComplete 0 "Error: A failed" ⟨"Idle", []⟩))).status = "Idle" ∧
    (timerFire 3000 (opComplete 2000 "Success B"
        (opComplete 0 "Error: A failed" ⟨"Idle", []⟩))).timers = [5000] ∧
    2000 + 3000 ≠ 3000 := by
  exact ⟨by decide, by decide, by decide⟩

/-- C9 (amended): each completed operation schedules a reset of the status
to `Idle` exactly 3000 ms after its completion; when no other operation
overlaps (a single completion from a timer-free state), the status stays
at the terminal message at every other firing instant and returns to
`Idle` exactly at completion time plus 3000 ms, but the timers are
untracked, so an earlier operation's timer can clear a later status
sooner than 3 s after that status was entered. -/
theorem status_reset_single_op_exact (t tq : Nat) (msg s0 : String)
    (hmsg : msg ≠ "Idle") (hne : tq ≠ t + 3000) :
    (timerFire tq (opComplete t msg ⟨s0, []⟩)).status = msg ∧
    timerFire (t + 3000) (opComplete t msg ⟨s0, []⟩) = ⟨"Idle", []⟩ ∧
    msg ≠ "Idle" := by
  refine ⟨?_, ?_, hmsg⟩
  · simp [timerFire, opComplete, hne]
  · simp [timerFire, opComplete]

/-- C9 witness: a single operation completing at time 0 keeps its message
at time 5 and is reset to Idle exactly at time 3000. -/
theorem status_reset_single_op_exact_witness :
    (timerFire 5 (opComplete 0 "Done" ⟨"Idle", []⟩)).status = "Done" ∧
    timerFire (0 + 3000) (opComplete 0 "Done" ⟨"Idle", []⟩) = ⟨"Idle", []⟩ := by
  have h := status_reset_single_op_exact 0 5 "Done" "Idle" (by decide) (by decide)
  exact ⟨h.1, h.2.1⟩

end SolanaWallet
